import Mathlib

set_option maxRecDepth 8192
set_option linter.unusedVariables false

/-!
Shallow embedding of the CEP_OPERA browser extension (src/autofill_cep.js and
the two unnamed variant files). The extension watches a page for a Brazilian
postal-code (CEP) field, queries address providers (ViaCEP, then BrasilAPI)
when 8 digits are typed, fills the sibling address fields, and periodically
scrubs phone-like and partner-e-mail values from the page.

JavaScript features that matter to control flow are modelled explicitly:
primitive values as `JsPrim` (with truthiness), a fetch+JSON step as
`FetchOutcome` (`throws` absorbs network failure, timeout and parse errors —
everything the providers' try/catch blocks catch), DOM elements as handles,
event-handler closures as fresh numeric ids.
-/

/-- JavaScript primitive values, as far as the scripts distinguish them. -/
inductive JsPrim where
  | undef
  | null
  | bool (b : Bool)
  | num (n : Int)
  | str (s : String)
deriving DecidableEq, Repr

/-- JavaScript truthiness of the modelled primitives. -/
def truthy : JsPrim → Bool
  | .undef => false
  | .null => false
  | .bool b => b
  | .num n => n != 0
  | .str s => s != ""

/-- JavaScript `a || b` on primitives. -/
def jsOr (a b : JsPrim) : JsPrim := if truthy a then a else b

/-- Assignment `input.value = v`: `HTMLInputElement.value` is
`[LegacyNullToEmptyString]`, so `null` becomes `""`; other primitives go
through the usual string conversion. -/
def atribuirValor : JsPrim → String
  | .undef => "undefined"
  | .null => ""
  | .bool b => if b then "true" else "false"
  | .num n => toString n
  | .str s => s

/-- Canonical (NFD) decompositions of the accented Latin characters the
extension can meet in provider data and labels; a character outside the table
is its own decomposition.  Each decomposition is a base character (itself not
in the table) followed by combining marks in U+0300-U+036F. -/
def nfdTable : List (Char × List Char) :=
  [ ('á', ['a', '\u0301']), ('à', ['a', '\u0300']), ('â', ['a', '\u0302']),
    ('ã', ['a', '\u0303']), ('ä', ['a', '\u0308']),
    ('é', ['e', '\u0301']), ('è', ['e', '\u0300']), ('ê', ['e', '\u0302']),
    ('ë', ['e', '\u0308']),
    ('í', ['i', '\u0301']), ('ì', ['i', '\u0300']), ('î', ['i', '\u0302']),
    ('ï', ['i', '\u0308']),
    ('ó', ['o', '\u0301']), ('ò', ['o', '\u0300']), ('ô', ['o', '\u0302']),
    ('õ', ['o', '\u0303']), ('ö', ['o', '\u0308']),
    ('ú', ['u', '\u0301']), ('ù', ['u', '\u0300']), ('û', ['u', '\u0302']),
    ('ü', ['u', '\u0308']),
    ('ç', ['c', '\u0327']), ('ñ', ['n', '\u0303']),
    ('Á', ['A', '\u0301']), ('À', ['A', '\u0300']), ('Â', ['A', '\u0302']),
    ('Ã', ['A', '\u0303']), ('Ä', ['A', '\u0308']),
    ('É', ['E', '\u0301']), ('È', ['E', '\u0300']), ('Ê', ['E', '\u0302']),
    ('Í', ['I', '\u0301']), ('Ì', ['I', '\u0300']), ('Î', ['I', '\u0302']),
    ('Ó', ['O', '\u0301']), ('Ò', ['O', '\u0300']), ('Ô', ['O', '\u0302']),
    ('Õ', ['O', '\u0303']), ('Ö', ['O', '\u0308']),
    ('Ú', ['U', '\u0301']), ('Ù', ['U', '\u0300']), ('Û', ['U', '\u0302']),
    ('Ü', ['U', '\u0308']),
    ('Ç', ['C', '\u0327']), ('Ñ', ['N', '\u0303']) ]

/-- First-match association lookup over the decomposition table. -/
def procuraDecomposicao : List (Char × List Char) → Char → Option (List Char)
  | [], _ => none
  | p :: resto, c => if p.1 = c then some p.2 else procuraDecomposicao resto c

/-- NFD decomposition of one character. -/
def nfdChar (c : Char) : List Char := (procuraDecomposicao nfdTable c).getD [c]

/-- `texto.normalize("NFD")` over a character list. -/
def nfdLista : List Char → List Char
  | [] => []
  | c :: resto => nfdChar c ++ nfdLista resto

/-- Combining diacritical marks U+0300-U+036F — the range erased by the
scripts' `replace of the U+0300-U+036F block with the empty string`. -/
def ehCombinante (c : Char) : Bool := 0x300 ≤ c.toNat && c.toNat ≤ 0x36F

/-- `texto.normalize("NFD").replace of the U+0300-U+036F block with the empty string` on a string. -/
def normalizeStr (s : String) : String :=
  ⟨(nfdLista s.data).filter (fun c => !ehCombinante c)⟩

/-- `normalizarString` of src/autofill_cep.js lines 39-45: values that are not
strings are mapped to the empty string before normalisation. -/
def normalizarString : JsPrim → String
  | .str s => normalizeStr s
  | _ => ""

/-- `valor.replace(/\D/g, '')`: keep only the decimal digits. -/
def somenteDigitos (s : String) : String := ⟨s.data.filter Char.isDigit⟩

/-- JavaScript regex `\s` class membership (also the WhiteSpace plus
LineTerminator set used by `String.prototype.trim`). -/
def ehEspacoJs (c : Char) : Bool :=
  c.toNat == 0x9 || c.toNat == 0xA || c.toNat == 0xB || c.toNat == 0xC
    || c.toNat == 0xD || c.toNat == 0x20 || c.toNat == 0xA0 || c.toNat == 0x1680
    || (0x2000 ≤ c.toNat && c.toNat ≤ 0x200A) || c.toNat == 0x2028
    || c.toNat == 0x2029 || c.toNat == 0x202F || c.toNat == 0x205F
    || c.toNat == 0x3000 || c.toNat == 0xFEFF

/-- JavaScript `texto.trim()`: strip leading and trailing whitespace. -/
def trimJs (s : String) : String :=
  ⟨((s.data.dropWhile ehEspacoJs).reverse.dropWhile ehEspacoJs).reverse⟩

/-- JavaScript `texto.toLowerCase()` restricted to ASCII (every string the
scripts lower-case against is ASCII). -/
def paraMinusculo (s : String) : String := ⟨s.data.map Char.toLower⟩

/-- JavaScript `texto.endsWith(sufixo)`. -/
def terminaCom (s sufixo : String) : Bool := sufixo.data.isSuffixOf s.data

/-- JavaScript `texto.startsWith(prefixo)` (used for the anchored regex). -/
def comecaCom (s p : String) : Bool := p.data.isPrefixOf s.data

/-- Outcome of one `fetch` + `response.json()` step towards a provider:
`throws` covers network failure, timeout and JSON parse failure — everything
the provider function's own try/catch absorbs; `respond` carries
`response.ok`, `response.status` and the parsed payload. -/
inductive FetchOutcome (α : Type) where
  | throws
  | respond (ok : Bool) (status : Nat) (data : α)
deriving DecidableEq, Repr

/-- Payload shape of a ViaCEP answer, as read by the script. `erro` is the
truthiness of `data.erro` (ViaCEP marks unknown CEPs with `erro: true`). -/
structure ViaCepData where
  erro : Bool
  cep : JsPrim
  uf : JsPrim
  localidade : JsPrim
  bairro : JsPrim
  logradouro : JsPrim
  complemento : JsPrim
deriving DecidableEq, Repr

/-- Payload shape of a BrasilAPI answer, as read by the script. `type` is
`data.type` (`none` models `undefined`). -/
structure BrasilApiData where
  type : Option String
  cep : JsPrim
  state : JsPrim
  city : JsPrim
  neighborhood : JsPrim
  street : JsPrim
  complemento : JsPrim
deriving DecidableEq, Repr

/-- The canonical address record both providers are mapped into
(src/autofill_cep.js lines 59-66 and 84-91).  Fields hold the strings written
by the script; `complemento` can be `null` (the `|| null` at the end). -/
structure DadosEndereco where
  cep : JsPrim
  estado : JsPrim
  cidade : JsPrim
  bairro : JsPrim
  rua : JsPrim
  complemento : JsPrim
deriving DecidableEq, Repr

/-- `normalizarString(x) || null`: an empty normalised string becomes null. -/
def ouNull (s : String) : JsPrim := if s = "" then JsPrim.null else JsPrim.str s

/-- `consultarViaCEP` of src/autofill_cep.js lines 48-71.  The consulted code
only selects the URL; the network's answer for it is the `resultado`
argument.  Any thrown error is caught and turned into `null` (none). -/
def consultarViaCEP (resultado : FetchOutcome ViaCepData) (cepConsultado : String) :
    Option DadosEndereco :=
  match resultado with
  | .throws => none
  | .respond ok _status data =>
    if !ok || data.erro then none
    else some
      { cep := .str (normalizarString data.cep)
        estado := .str (normalizarString data.uf)
        cidade := .str (normalizarString data.localidade)
        bairro := .str (normalizarString data.bairro)
        rua := .str (normalizarString data.logradouro)
        complemento := ouNull (normalizarString (jsOr data.complemento (.str ""))) }

/-- `consultarBrasilAPI` of src/autofill_cep.js lines 73-96. -/
def consultarBrasilAPI (resultado : FetchOutcome BrasilApiData) (cepConsultado : String) :
    Option DadosEndereco :=
  match resultado with
  | .throws => none
  | .respond ok status data =>
    if !ok || status == 404 || data.type == some "service_error"
        || data.type == some "validation_error" then none
    else some
      { cep := .str (normalizarString data.cep)
        estado := .str (normalizarString data.state)
        cidade := .str (normalizarString data.city)
        bairro := .str (normalizarString data.neighborhood)
        rua := .str (normalizarString data.street)
        complemento := ouNull (normalizarString (jsOr data.complemento (.str ""))) }

/-- Names of the two providers, for the consultation trace. -/
inductive Provider where
  | viaCEP
  | brasilAPI
deriving DecidableEq, Repr

/-- What the network answers each provider for the consulted code. -/
structure ProviderEnv where
  viaCep : FetchOutcome ViaCepData
  brasilApi : FetchOutcome BrasilApiData
deriving DecidableEq, Repr

/-- The gateway fallback chain of src/autofill_cep.js lines 177-184:
ViaCEP first, BrasilAPI only when ViaCEP produced `null`.  The second
component instruments which providers were actually consulted (in order). -/
def lookupComTrace (env : ProviderEnv) (cepConsultado : String) :
    Option DadosEndereco × List Provider :=
  match consultarViaCEP env.viaCep cepConsultado with
  | some dados => (some dados, [Provider.viaCEP])
  | none => (consultarBrasilAPI env.brasilApi cepConsultado, [Provider.viaCEP, Provider.brasilAPI])

/-- `consultarCEP` of src/unnamed/part_001 lines 90-120: unlike the
autofill_cep.js providers it re-validates the code (digit-strip and length
check) before any fetch.  Second component: whether a network call was made.
In that variant a non-ok response is thrown and then caught, yielding null. -/
def consultarCEP (resultado : FetchOutcome ViaCepData) (cep : String) :
    Option DadosEndereco × Bool :=
  let cleanedCep := somenteDigitos cep
  if cleanedCep = "" || cleanedCep.length != 8 then (none, false)
  else
    match resultado with
    | .throws => (none, true)
    | .respond ok _status data =>
      if !ok then (none, true)
      else if data.erro then (none, true)
      else (some
        { cep := .str (normalizarString data.cep)
          estado := .str (normalizarString data.uf)
          cidade := .str (normalizarString data.localidade)
          bairro := .str (normalizarString data.bairro)
          rua := .str (normalizarString data.logradouro)
          complemento := ouNull (normalizarString (jsOr data.complemento (.str ""))) }, true)

/-- Current values of the resolved address form fields.  `cep`, `rua` and
`numero` are always present in a usable set (`obterInputsFormularioEndereco`
only returns a set containing all three); the remaining fields may be
unresolved (`none`). -/
structure FormState where
  cep : String
  rua : String
  numero : String
  bairro : Option String
  complemento : Option String
  cidade : Option String
  estado : Option String
deriving DecidableEq, Repr

/-- The fill step of src/autofill_cep.js lines 186-207: the loop over
CAMPOS_AUTO_PREENCHIMENTO = [rua, bairro, complemento, numero] followed by
the separate cidade and estado blocks.  `numero` follows the hard-coded
override (780 exactly for CEP 14027250, cleared otherwise); the other looped
fields are written when the record key is not `undefined` (a `null`
complemento writes ""), and cleared when the key is absent; cidade and estado
are written only when the record value is truthy. -/
def preencherCampos (st : FormState) (dados : DadosEndereco) (valorCep : String) : FormState :=
  { st with
    numero := if valorCep = "14027250" then "780" else ""
    rua := if dados.rua != JsPrim.undef then atribuirValor dados.rua else ""
    bairro := st.bairro.map fun _ =>
      if dados.bairro != JsPrim.undef then atribuirValor dados.bairro else ""
    complemento := st.complemento.map fun _ =>
      if dados.complemento != JsPrim.undef then atribuirValor dados.complemento else ""
    cidade := st.cidade.map fun _ =>
      if truthy dados.cidade then atribuirValor dados.cidade else ""
    estado := st.estado.map fun _ =>
      if truthy dados.estado then atribuirValor dados.estado else "" }

/-- Observable outcome of one input-handler invocation: the resolved fields'
values afterwards, whether the confirmation was shown, which providers were
consulted, and whether the post-fill scrub (`limparDadosTela`) ran. -/
structure ResultadoHandler where
  campos : FormState
  notificou : Bool
  consultados : List Provider
  limpouTela : Bool
deriving DecidableEq, Repr

/-- `tentarAutoPreencherEndereco` of src/autofill_cep.js lines 173-222: strip
non-digits, require exactly 8 digits, run the provider chain, fill + notify +
scrub on success, and on failure only log (field clearing is commented out in
the source). -/
def tentarAutoPreencherEndereco (env : ProviderEnv) (st : FormState) : ResultadoHandler :=
  let valorCep := somenteDigitos st.cep
  if valorCep.length == 8 then
    match lookupComTrace env valorCep with
    | (some dados, consultados) =>
      { campos := preencherCampos st dados valorCep
        notificou := true
        consultados := consultados
        limpouTela := true }
    | (none, consultados) =>
      { campos := st, notificou := false, consultados := consultados, limpouTela := false }
  else
    { campos := st, notificou := false, consultados := [], limpouTela := false }

/-- Element kinds the resolvers distinguish (`tagName === 'INPUT'`,
`instanceof HTMLInputElement`). -/
inductive Tag where
  | input
  | other
deriving DecidableEq, Repr

/-- A DOM element: an identity handle plus its kind. -/
structure Elem where
  handle : Nat
  tag : Tag
deriving DecidableEq, Repr

/-- A label element as the resolvers read it: its `textContent`, its
`htmlFor` attribute ("" models the absent/falsy case), the first input
returned by `querySelector('input')` inside it, and its following element
siblings in document order. -/
structure LabelElem where
  textContent : String
  htmlFor : String
  nested : Option Elem
  siblings : List Elem
deriving DecidableEq, Repr

/-- The slice of a document the resolvers consume: all label elements in
document order and the `getElementById` table. -/
structure Dom where
  labels : List LabelElem
  byId : List (String × Elem)
deriving DecidableEq, Repr

/-- `document.getElementById`. -/
def getById (d : Dom) (idAlvo : String) : Option Elem :=
  (d.byId.find? (fun p => p.1 == idAlvo)).map (·.2)

/-- `encontrarCampoInputPorLabel` of src/autofill_cep.js lines 98-114: for
each candidate text in order, find the first label whose trimmed text is
exactly equal to it; when the label carries `htmlFor`, the `getElementById`
result is returned unconditionally (even when it is null or not an input);
otherwise `querySelector('input') || nextElementSibling` is returned when it
is an INPUT, and the next candidate is tried when it is not. -/
def encontrarCampoInputPorLabel : List String → Dom → Option Elem
  | [], _ => none
  | textoLabel :: resto, d =>
    match d.labels.find? (fun l => trimJs l.textContent == textoLabel) with
    | some elementoLabel =>
      if elementoLabel.htmlFor != "" then getById d elementoLabel.htmlFor
      else
        match elementoLabel.nested.orElse (fun _ => elementoLabel.siblings.head?) with
        | some inputAssociado =>
          if inputAssociado.tag == Tag.input then some inputAssociado
          else encontrarCampoInputPorLabel resto d
        | none => encontrarCampoInputPorLabel resto d
    | none => encontrarCampoInputPorLabel resto d

/-- The `while (nextSibling)` walk of part_001: the first following sibling
that is an input element. -/
def primeiroIrmaoInput (es : List Elem) : Option Elem :=
  es.find? (fun e => e.tag == Tag.input)

/-- `findFieldByLabel` of src/unnamed/part_001 lines 153-191: candidate texts
in order, labels matched on NFD-normalised trimmed text, then the strategy
chain — `htmlFor` target accepted only when it is an input, else the nested
input, else the first input-typed following sibling — falling through to the
next candidate when every strategy fails.  (The leading array guard of the
source collapses to the empty-list base case.) -/
def findFieldByLabel : List String → Dom → Option Elem
  | [], _ => none
  | labelText :: resto, d =>
    match d.labels.find? (fun l => normalizeStr (trimJs l.textContent) == normalizeStr labelText) with
    | some label =>
      match (if label.htmlFor != "" then
              match getById d label.htmlFor with
              | some e => if e.tag == Tag.input then some e else none
              | none => none
            else none) with
      | some e => some e
      | none =>
        match label.nested with
        | some e =>
          if e.tag == Tag.input then some e
          else
            match primeiroIrmaoInput label.siblings with
            | some e2 => some e2
            | none => findFieldByLabel resto d
        | none =>
          match primeiroIrmaoInput label.siblings with
          | some e2 => some e2
          | none => findFieldByLabel resto d
    | none => findFieldByLabel resto d

/-- Strategy 1 of claim C5's wording: the element referenced by the label's
explicit target-id association, when that yields an input element. -/
def alvoExplicito (d : Dom) (l : LabelElem) : Option Elem :=
  if l.htmlFor != "" then
    (getById d l.htmlFor).bind (fun e => if e.tag == Tag.input then some e else none)
  else none

/-- Strategy 2 of claim C5's wording: an input nested inside the label. -/
def inputAninhado (l : LabelElem) : Option Elem :=
  l.nested.bind (fun e => if e.tag == Tag.input then some e else none)

/-- The field-resolution algorithm exactly as claim C5 words it: scan all
label elements, compare normalised trimmed label text against each candidate
string in listed order (first match wins), and resolve the matched label by
the first successful strategy: explicit target-id association, nested input,
first input-typed following sibling. -/
def resolverEspecificacao (textos : List String) (d : Dom) : Option Elem :=
  textos.findSome? fun t =>
    (d.labels.find? (fun l => normalizeStr (trimJs l.textContent) == normalizeStr t)).bind
      fun l => (alvoExplicito d l).orElse fun _ =>
        (inputAninhado l).orElse fun _ => primeiroIrmaoInput l.siblings

/-- The translation table: per logical field, the ordered list of acceptable
label texts.  The not-yet-loaded state (`traducoes = {}`, i.e.
`Object.keys(traducoes).length === 0`) is modelled as `none`. -/
structure LabelTable where
  cep : List String
  rua : List String
  bairro : List String
  cidade : List String
  estado : List String
  complemento : List String
  numero : List String
deriving DecidableEq, Repr

abbrev Traducoes := Option LabelTable

/-- A usable resolved field set: src/autofill_cep.js line 167 requires cep,
rua and numero; the remaining fields may be missing. -/
structure CamposFormulario where
  cep : Elem
  rua : Elem
  numero : Elem
  bairro : Option Elem
  cidade : Option Elem
  estado : Option Elem
  complemento : Option Elem
deriving DecidableEq, Repr

/-- Log levels: the script's Logger.log is `info`, Logger.error is `erro`. -/
inductive NivelLog where
  | info
  | erro
deriving DecidableEq, Repr

/-- `obterInputsFormularioEndereco` of src/autofill_cep.js lines 150-171:
with no translations loaded it logs (at info level, line 152) and returns
null; otherwise it resolves every field and returns the set only when cep,
rua and numero were all found.  Second component: levels of the log entries
emitted. -/
def obterInputsFormularioEndereco (tr : Traducoes) (d : Dom) :
    Option CamposFormulario × List NivelLog :=
  match tr with
  | none => (none, [NivelLog.info])
  | some t =>
    match encontrarCampoInputPorLabel t.cep d, encontrarCampoInputPorLabel t.rua d,
        encontrarCampoInputPorLabel t.numero d with
    | some c, some r, some n =>
      (some
        { cep := c, rua := r, numero := n
          bairro := encontrarCampoInputPorLabel t.bairro d
          cidade := encontrarCampoInputPorLabel t.cidade d
          estado := encontrarCampoInputPorLabel t.estado d
          complemento := encontrarCampoInputPorLabel t.complemento d }, [])
    | _, _, _ => (none, [])

/-- Orchestrator module state (src/autofill_cep.js lines 7-9 plus the DOM's
listener bookkeeping).  Elements are handles (Nat); every arrow function the
script creates is a fresh id drawn from `fresh`.  `manipuladores` models the
`_manipuladorEvento` expando property per element; `listeners` the pairs
(element, handler) actually attached for the `input` event. -/
structure OrchState where
  atuais : Option Nat
  anexado : Bool
  manipuladores : List (Nat × Nat)
  listeners : List (Nat × Nat)
  fresh : Nat
deriving DecidableEq, Repr

/-- Startup state: no field set, no listener, no stored handlers. -/
def estadoInicial : OrchState := ⟨none, false, [], [], 0⟩

/-- Read an element's `_manipuladorEvento` property. -/
def buscaManipulador (m : List (Nat × Nat)) (e : Nat) : Option Nat :=
  (m.find? (fun p => p.1 == e)).map (·.2)

/-- `elem.removeEventListener('input', f)`: removes the matching pair; with
an undefined callback it is a no-op. -/
def removerOuvinte (l : List (Nat × Nat)) (e : Nat) (f : Option Nat) : List (Nat × Nat) :=
  match f with
  | none => l
  | some f0 => l.filter (fun p => p != (e, f0))

/-- `elem.addEventListener('input', f)`: attaching an already-attached
(element, handler) pair is a no-op per DOM semantics. -/
def adicionarOuvinte (l : List (Nat × Nat)) (e f : Nat) : List (Nat × Nat) :=
  if (e, f) ∈ l then l else l ++ [(e, f)]

/-- `elem._manipuladorEvento = f`: overwrite the stored handler. -/
def definirManipulador (m : List (Nat × Nat)) (e f : Nat) : List (Nat × Nat) :=
  (e, f) :: m.filter (fun p => p.1 != e)

/-- One poll tick's listener logic, src/autofill_cep.js lines 280-301, given
the cep handle of the field set found this tick (`none` when resolution
failed everywhere).  Branch 1: a set whose cep differs from the current one
(or none current) — remove the old listener via the stored handler, then
store a fresh handler and attach it.  Branch 2: nothing found while attached
— remove via the stored handler (no-op if it is undefined) and reset.
Branch 3: nothing found, nothing attached — log only.  Second component:
levels of the log entries emitted (all info). -/
def tick (s : OrchState) (encontrado : Option Nat) : OrchState × List NivelLog :=
  match encontrado with
  | some h =>
    if s.atuais ≠ some h then
      let passo1 :=
        match s.atuais, s.anexado with
        | some h0, true =>
          ({ s with
              listeners := removerOuvinte s.listeners h0 (buscaManipulador s.manipuladores h0)
              anexado := false }, [NivelLog.info])
        | _, _ => (s, [])
      ({ passo1.1 with
          atuais := some h
          manipuladores := definirManipulador passo1.1.manipuladores h passo1.1.fresh
          listeners := adicionarOuvinte passo1.1.listeners h passo1.1.fresh
          anexado := true
          fresh := passo1.1.fresh + 1 }, passo1.2 ++ [NivelLog.info])
    else (s, [])
  | none =>
    if s.anexado then
      let novos :=
        match s.atuais with
        | some h0 =>
          match buscaManipulador s.manipuladores h0 with
          | some f0 => removerOuvinte s.listeners h0 (some f0)
          | none => s.listeners
        | none => s.listeners
      ({ s with listeners := novos, atuais := none, anexado := false }, [NivelLog.info])
    else (s, [NivelLog.info])

/-- The orchestrator state after a sequence of poll ticks from startup, where
each list entry is the cep handle resolution produced that tick. -/
def executarTicks (eventos : List (Option Nat)) : OrchState :=
  eventos.foldl (fun s e => (tick s e).1) estadoInicial

/-- The frame loop of src/autofill_cep.js lines 266-278: scopes in order;
`none` models a cross-origin frame whose document access throws (caught and
logged at info level); the first frame yielding a usable set wins. -/
def procurarNosFrames (tr : Traducoes) : List (Option Dom) →
    Option CamposFormulario × List NivelLog
  | [] => (none, [])
  | none :: resto =>
    let r := procurarNosFrames tr resto
    (r.1, NivelLog.info :: r.2)
  | some d :: resto =>
    match obterInputsFormularioEndereco tr d with
    | (some c, logs) => (some c, logs ++ [NivelLog.info])
    | (none, logs) =>
      let r := procurarNosFrames tr resto
      (r.1, logs ++ r.2)

/-- `configurarListenersEndereco` of src/autofill_cep.js lines 260-302: try
the top window, then the frames in order, then run the listener tick on the
result. -/
def configurarListenersEndereco (tr : Traducoes) (janelaPrincipal : Dom)
    (frames : List (Option Dom)) (s : OrchState) : OrchState × List NivelLog :=
  let naJanela := obterInputsFormularioEndereco tr janelaPrincipal
  let encontrados :=
    match naJanela.1 with
    | some c => (some c, ([] : List NivelLog))
    | none => procurarNosFrames tr frames
  let aposTick := tick s (encontrados.1.map (fun c => c.cep.handle))
  (aposTick.1, naJanela.2 ++ encontrados.2 ++ aposTick.2)

/-- An input element as `limparDadosTela` sees it: its `type` attribute, its
`inputmode` attribute and its current value. -/
structure InputElem where
  type : String
  inputmode : String
  value : String
deriving DecidableEq, Repr

mutual
/-- A window and its frame tree.  The flag is whether reading this frame's
document succeeds from its parent (false models a cross-origin frame, whose
access throws and is swallowed by the try/catch). -/
inductive Janela where
  | mk (acessivel : Bool) (inputs : List InputElem) (frames : Frames)
/-- The list of child frames; a dedicated mutual type keeps recursion
structural. -/
inductive Frames where
  | nil
  | cons (frame : Janela) (resto : Frames)
end

/-- Whether the frame's document can be read from its parent. -/
def Janela.acessivel : Janela → Bool
  | .mk a _ _ => a

/-- One character of the regex class `[\d\s+]`. -/
def ehDigitoEspacoMais (c : Char) : Bool := c.isDigit || ehEspacoJs c || c == '+'

/-- `input[type="tel"], input[inputmode="numeric"], input[type="text"]`. -/
def ehAlvoNumerico (i : InputElem) : Bool :=
  i.type == "tel" || i.inputmode == "numeric" || i.type == "text"

/-- `input[type="email"], input[type="text"]`. -/
def ehAlvoEmail (i : InputElem) : Bool := i.type == "email" || i.type == "text"

/-- `valor.replace(/^\+55/, '').replace(/\s/g, '').replace(/\+/g, '')`. -/
def limparNumero (v : String) : String :=
  ⟨(((if comecaCom v "+55" then v.data.drop 3 else v.data).filter
      (fun c => !ehEspacoJs c)).filter (fun c => c != '+'))⟩

/-- The partner e-mail suffix test of src/autofill_cep.js lines 242-244
(String.toLower is the ASCII lowering; all three suffixes are ASCII). -/
def ehEmailParceiro (v : String) : Bool :=
  terminaCom (paraMinusculo v) "@guest.booking.com"
    || terminaCom (paraMinusculo v) "@cvccorp.com"
    || terminaCom (paraMinusculo v) "m.expediapartnercentral.com"

/-- First pass of `limparDadosTela` (lines 226-237) on one input.  The
source's inner `if (valorOriginal !== valorLimpo)` only avoids a redundant
assignment; the final value is the cleaned one either way. -/
def passoNumerico (i : InputElem) : InputElem :=
  if ehAlvoNumerico i && i.value != "" && i.value.all ehDigitoEspacoMais then
    { i with value := limparNumero i.value }
  else i

/-- Second pass of `limparDadosTela` (lines 239-248) on one input. -/
def passoEmail (i : InputElem) : InputElem :=
  if ehAlvoEmail i && i.value != "" && ehEmailParceiro i.value then
    { i with value := "" }
  else i

mutual
/-- `limparDadosTela` of src/autofill_cep.js lines 224-258: the numeric pass
over the matching inputs, then the e-mail pass, then recursion into each
frame, swallowing access failures (inaccessible frames are left as they
are). -/
def limparDadosTela : Janela → Janela
  | .mk a inputs frames =>
    .mk a ((inputs.map passoNumerico).map passoEmail) (limparFramesTela frames)
/-- Frame-list recursion of `limparDadosTela`. -/
def limparFramesTela : Frames → Frames
  | .nil => .nil
  | .cons f resto =>
    .cons (if f.acessivel then limparDadosTela f else f) (limparFramesTela resto)
end

/-- The per-input scrub rule exactly as claim C10 words it: a text/tel/numeric
input whose value consists only of digits, spaces and plus signs loses a
leading +55 prefix and every space and plus sign; then a text/email input
whose value ends with one of the partner suffixes is cleared; any other input
keeps its value. -/
def scrubEspecInput (i : InputElem) : InputElem :=
  let v1 :=
    if ehAlvoNumerico i && i.value != "" && i.value.all ehDigitoEspacoMais
    then limparNumero i.value else i.value
  let v2 := if ehAlvoEmail i && ehEmailParceiro v1 then "" else v1
  { i with value := v2 }

mutual
/-- Claim C10's whole-tree wording: apply one per-input rule to every input
of the window and, recursively, of every accessible frame. -/
def mapaJanela (g : InputElem → InputElem) : Janela → Janela
  | .mk a inputs frames => .mk a (inputs.map g) (mapaFrames g frames)
/-- Frame-list recursion of `mapaJanela`. -/
def mapaFrames (g : InputElem → InputElem) : Frames → Frames
  | .nil => .nil
  | .cons f resto =>
    .cons (if f.acessivel then mapaJanela g f else f) (mapaFrames g resto)
end

/-- An 8-digit numeric code. -/
def ehCep8 (s : String) : Bool := s.length == 8 && s.data.all Char.isDigit

/-- All characters the decomposition table can output. -/
def saidaTabela : List Char := nfdTable.foldr (fun p acc => p.2 ++ acc) []

/-- The listener-singularity invariant of the orchestrator state: when the
flag says a listener is attached, exactly one is, on the current set's cep
element, and that element's stored handler is the attached one; when the flag
is off, no listener of ours is attached and no set is current. -/
def invariante (s : OrchState) : Prop :=
  (s.anexado = true → ∃ h f, s.atuais = some h
      ∧ buscaManipulador s.manipuladores h = some f ∧ s.listeners = [(h, f)])
  ∧ (s.anexado = false → s.listeners = [])
  ∧ (s.anexado = false → s.atuais = none)

/-- Concrete environment where both providers are unreachable. -/
def ambienteIndisponivel : ProviderEnv := ⟨FetchOutcome.throws, FetchOutcome.throws⟩

/-- Concrete ViaCEP payload for a successful answer (used in witnesses). -/
def respostaViaCep : ViaCepData :=
  { erro := false
    cep := .str "14027-250"
    uf := .str "SP"
    localidade := .str "Ribeirão Preto"
    bairro := .str "Jardim Canadá"
    logradouro := .str "Avenida Luiz Eduardo Toledo Prado"
    complemento := .str "de 2501 ao fim - lado ímpar" }

/-- Concrete demonstration DOM for claim C5: one label reading "Endereço"
with an input nested inside it and no explicit target-id association. -/
def domDemonstracao : Dom :=
  { labels := [{ textContent := "Endereço", htmlFor := ""
                 nested := some ⟨7, Tag.input⟩, siblings := [] }]
    byId := [] }

/-- The interval callback installed by `inicializar` (src/autofill_cep.js
lines 306-309): every poll tick runs `configurarListenersEndereco` and then
`limparDadosTela` over the window tree. -/
def cicloDeVerificacao (tr : Traducoes) (janelaPrincipal : Dom)
    (frames : List (Option Dom)) (s : OrchState) (arvore : Janela) :
    (OrchState × List NivelLog) × Janela :=
  (configurarListenersEndereco tr janelaPrincipal frames s, limparDadosTela arvore)

theorem saida_fixa : ∀ d ∈ saidaTabela, nfdChar d = [d] := by decide

theorem procura_mem {t : List (Char × List Char)} {c : Char} {ds : List Char}
    (h : procuraDecomposicao t c = some ds) : (c, ds) ∈ t := by
  induction t with
  | nil => simp [procuraDecomposicao] at h
  | cons p resto ih =>
    rw [procuraDecomposicao] at h
    split at h
    · rename_i heq
      cases h
      simp_all [List.mem_cons]
      left
      cases p
      simp_all
    · exact List.mem_cons_of_mem _ (ih h)

theorem mem_saida {p : Char × List Char} (hp : p ∈ nfdTable) {d : Char}
    (hd : d ∈ p.2) : d ∈ saidaTabela := by
  unfold saidaTabela
  revert hp
  generalize nfdTable = t
  intro hp
  induction t with
  | nil => cases hp
  | cons q resto ih =>
    rcases List.mem_cons.mp hp with h | h
    · subst h
      exact List.mem_append_left _ hd
    · exact List.mem_append_right _ (ih h)

theorem nfdChar_fixo {c d : Char} (h : d ∈ nfdChar c) : nfdChar d = [d] := by
  unfold nfdChar at h
  cases hl : procuraDecomposicao nfdTable c with
  | none =>
    rw [hl] at h
    simp at h
    subst h
    unfold nfdChar
    rw [hl]
    rfl
  | some ds =>
    rw [hl] at h
    simp at h
    exact saida_fixa d (mem_saida (procura_mem hl) h)

theorem mem_nfdLista {d : Char} {l : List Char} (h : d ∈ nfdLista l) :
    ∃ c ∈ l, d ∈ nfdChar c := by
  induction l with
  | nil => simp [nfdLista] at h
  | cons c resto ih =>
    rw [nfdLista] at h
    rcases List.mem_append.mp h with h1 | h1
    · exact ⟨c, List.mem_cons_self c resto, h1⟩
    · obtain ⟨c', hc', hd'⟩ := ih h1
      exact ⟨c', List.mem_cons_of_mem _ hc', hd'⟩

theorem nfdLista_fixa {l : List Char} (h : ∀ c ∈ l, nfdChar c = [c]) :
    nfdLista l = l := by
  induction l with
  | nil => rfl
  | cons c resto ih =>
    rw [nfdLista, h c (List.mem_cons_self c resto),
      ih (fun c' hc' => h c' (List.mem_cons_of_mem _ hc'))]
    rfl

theorem normalizeLista_idem (l : List Char) :
    (nfdLista ((nfdLista l).filter (fun c => !ehCombinante c))).filter
        (fun c => !ehCombinante c)
      = (nfdLista l).filter (fun c => !ehCombinante c) := by
  have hfix : ∀ c ∈ (nfdLista l).filter (fun c => !ehCombinante c), nfdChar c = [c] := by
    intro c hc
    obtain ⟨c0, hc0, hmem⟩ := mem_nfdLista (List.mem_filter.mp hc).1
    exact nfdChar_fixo hmem
  rw [nfdLista_fixa hfix]
  exact List.filter_eq_self.mpr (fun a ha => (List.mem_filter.mp ha).2)

theorem normalizeStr_idem (s : String) : normalizeStr (normalizeStr s) = normalizeStr s :=
  congrArg String.mk (normalizeLista_idem s.data)

/-- Claim C8: the string normaliser is total (modelled as a total function on
all JavaScript primitives; the source guard maps every non-string to "") and
idempotent, and decomposes accents and discards the combining marks, so that
normalising "São Paulo" gives "Sao Paulo". -/
theorem claim_C8 :
    (normalizarString JsPrim.undef = "" ∧ normalizarString JsPrim.null = ""
      ∧ (∀ b, normalizarString (JsPrim.bool b) = "")
      ∧ (∀ n, normalizarString (JsPrim.num n) = ""))
    ∧ (∀ v, normalizarString (JsPrim.str (normalizarString v)) = normalizarString v)
    ∧ normalizarString (JsPrim.str "São Paulo") = "Sao Paulo" := by
  refine ⟨⟨rfl, rfl, fun b => rfl, fun n => rfl⟩, ?_, by decide⟩
  intro v
  cases v with
  | str s => exact normalizeStr_idem s
  | undef => decide
  | null => decide
  | bool b => show normalizeStr "" = "" ; decide
  | num n => show normalizeStr "" = "" ; decide

/-- Claim C1: for every 8-digit numeric code, the gateway chain consults
ViaCEP first and returns its record without consulting BrasilAPI; when ViaCEP
yields null (not found or caught failure) BrasilAPI is consulted; when both
yield null the chain returns null; and a thrown provider error is converted
to null rather than escaping. -/
theorem claim_C1 (env : ProviderEnv) (cep : String) (hcep : ehCep8 cep = true) :
    (∀ dados, consultarViaCEP env.viaCep cep = some dados →
      lookupComTrace env cep = (some dados, [Provider.viaCEP]))
    ∧ (consultarViaCEP env.viaCep cep = none →
      lookupComTrace env cep
        = (consultarBrasilAPI env.brasilApi cep, [Provider.viaCEP, Provider.brasilAPI]))
    ∧ (consultarViaCEP env.viaCep cep = none → consultarBrasilAPI env.brasilApi cep = none →
      (lookupComTrace env cep).1 = none)
    ∧ consultarViaCEP FetchOutcome.throws cep = none
    ∧ consultarBrasilAPI FetchOutcome.throws cep = none := by
  refine ⟨?_, ?_, ?_, rfl, rfl⟩
  · intro dados hv
    unfold lookupComTrace
    rw [hv]
  · intro hv
    unfold lookupComTrace
    rw [hv]
  · intro hv hb
    unfold lookupComTrace
    rw [hv, hb]

/-- Witness for claim C1 at the concrete code "01310930" with both providers
unreachable: ViaCEP's failure is absorbed, BrasilAPI is consulted, and the
chain returns null. -/
theorem claim_C1_witness :
    lookupComTrace ambienteIndisponivel "01310930"
      = (none, [Provider.viaCEP, Provider.brasilAPI]) := by
  have h := (claim_C1 ambienteIndisponivel "01310930" (by decide)).2.1 rfl
  rw [h]
  rfl

/-- Counterexample to claim C3 as stated: for the malformed input "123" the
autofill_cep.js gateway (consultarViaCEP/consultarBrasilAPI chained in
tentarAutoPreencherEndereco) does not re-validate — it consults the providers
(network calls happen), and with a cooperative provider answer it even
returns a record instead of null. -/
theorem claim_C3_counterexample :
    (lookupComTrace ambienteIndisponivel "123").2 ≠ []
    ∧ (lookupComTrace ⟨FetchOutcome.respond true 200 respostaViaCep,
        FetchOutcome.throws⟩ "123").1 ≠ none := by
  constructor
  · decide
  · decide

/-- Claim C3 amended: it is the part_001 variant's gateway (consultarCEP)
that re-validates: for every input whose digit-stripped form is not exactly 8
digits it returns null immediately and performs no network call.  The
autofill_cep.js gateway performs the provider call regardless of the input's
shape and relies on the caller's own 8-digit check. -/
theorem claim_C3 (resultado : FetchOutcome ViaCepData) (cep : String)
    (h : (somenteDigitos cep).length ≠ 8) : consultarCEP resultado cep = (none, false) := by
  have hb : ((somenteDigitos cep).length != 8) = true := by simpa using h
  simp [consultarCEP, hb]

/-- Witness for claim C3: the part_001 gateway given "123" answers null
without any network call, whatever the network would have answered. -/
theorem claim_C3_witness : consultarCEP FetchOutcome.throws "123" = (none, false) :=
  claim_C3 FetchOutcome.throws "123" (by decide)

/-- Claim C4: on a successful lookup the fill step writes the auto-fill
fields from the record — numero is "780" exactly when the looked-up code is
"14027250" and cleared for every other code; rua, bairro and complemento take
the record value when the key is present and are cleared when it is absent,
so no resolved auto-fill field keeps stale data. -/
theorem claim_C4 (env : ProviderEnv) (st : FormState) (dados : DadosEndereco)
    (hlen : (somenteDigitos st.cep).length = 8)
    (hlook : (lookupComTrace env (somenteDigitos st.cep)).1 = some dados) :
    ((tentarAutoPreencherEndereco env st).campos.numero = "780"
      ↔ somenteDigitos st.cep = "14027250")
    ∧ (somenteDigitos st.cep ≠ "14027250" →
      (tentarAutoPreencherEndereco env st).campos.numero = "")
    ∧ (tentarAutoPreencherEndereco env st).campos.rua
      = (if dados.rua != JsPrim.undef then atribuirValor dados.rua else "")
    ∧ (tentarAutoPreencherEndereco env st).campos.bairro
      = st.bairro.map (fun _ =>
          if dados.bairro != JsPrim.undef then atribuirValor dados.bairro else "")
    ∧ (tentarAutoPreencherEndereco env st).campos.complemento
      = st.complemento.map (fun _ =>
          if dados.complemento != JsPrim.undef then atribuirValor dados.complemento else "") := by
  have h8 : ((somenteDigitos st.cep).length == 8) = true := by simpa using hlen
  rcases hp : lookupComTrace env (somenteDigitos st.cep) with ⟨o, tr⟩
  rw [hp] at hlook
  simp only at hlook
  subst hlook
  have hcampos : (tentarAutoPreencherEndereco env st).campos
      = preencherCampos st dados (somenteDigitos st.cep) := by
    simp [tentarAutoPreencherEndereco, h8, hp]
  refine ⟨?_, ?_, ?_, ?_, ?_⟩
  · by_cases hc : somenteDigitos st.cep = "14027250" <;>
      simp [hcampos, preencherCampos, hc]
  · intro hc
    simp [hcampos, preencherCampos, hc]
  · simp [hcampos, preencherCampos]
  · simp [hcampos, preencherCampos]
  · simp [hcampos, preencherCampos]

/-- Witness for claim C4 at the designated test code: with ViaCEP answering
for "14027250", the number field is set to "780". -/
theorem claim_C4_witness :
    (tentarAutoPreencherEndereco
      ⟨FetchOutcome.respond true 200 respostaViaCep, FetchOutcome.throws⟩
      { cep := "14027-250", rua := "", numero := "", bairro := some "antigo"
        complemento := some "antigo", cidade := none, estado := none }).campos.numero
      = "780" :=
  (claim_C4 ⟨FetchOutcome.respond true 200 respostaViaCep, FetchOutcome.throws⟩
    { cep := "14027-250", rua := "", numero := "", bairro := some "antigo"
      complemento := some "antigo", cidade := none, estado := none }
    { cep := .str "14027-250", estado := .str "SP", cidade := .str "Ribeirao Preto"
      bairro := .str "Jardim Canada", rua := .str "Avenida Luiz Eduardo Toledo Prado"
      complemento := .str "de 2501 ao fim - lado impar" }
    (by decide) (by decide)).1.mpr (by decide)

/-- Claim C6: when no provider succeeded (the chain yields null), the handler
leaves every resolved field exactly as it was and shows no confirmation. -/
theorem claim_C6 (env : ProviderEnv) (st : FormState)
    (hlook : (lookupComTrace env (somenteDigitos st.cep)).1 = none) :
    (tentarAutoPreencherEndereco env st).campos = st
    ∧ (tentarAutoPreencherEndereco env st).notificou = false := by
  by_cases h8 : ((somenteDigitos st.cep).length == 8) = true
  · rcases hp : lookupComTrace env (somenteDigitos st.cep) with ⟨o, tr⟩
    rw [hp] at hlook
    simp only at hlook
    subst hlook
    constructor <;> simp [tentarAutoPreencherEndereco, h8, hp]
  · constructor <;> simp [tentarAutoPreencherEndereco, h8]

/-- Witness for claim C6: both providers unreachable for the well-formed code
12345678 — the fields keep their values and no notification fires. -/
theorem claim_C6_witness :
    (tentarAutoPreencherEndereco ambienteIndisponivel
      { cep := "12345-678", rua := "Rua Antiga", numero := "9", bairro := some "B"
        complemento := none, cidade := none, estado := none }).campos
      = { cep := "12345-678", rua := "Rua Antiga", numero := "9", bairro := some "B"
          complemento := none, cidade := none, estado := none }
    ∧ (tentarAutoPreencherEndereco ambienteIndisponivel
      { cep := "12345-678", rua := "Rua Antiga", numero := "9", bairro := some "B"
        complemento := none, cidade := none, estado := none }).notificou = false :=
  claim_C6 ambienteIndisponivel _ (by decide)

/-- Claim C7: a field value whose digit-stripped form is not 8 digits makes
the handler a perfect no-op: no provider call, no field change, no
notification, no scrub. -/
theorem claim_C7 (env : ProviderEnv) (st : FormState)
    (h : (somenteDigitos st.cep).length ≠ 8) :
    tentarAutoPreencherEndereco env st
      = { campos := st, notificou := false, consultados := [], limpouTela := false } := by
  have h8 : ((somenteDigitos st.cep).length == 8) = false := by simpa using h
  simp [tentarAutoPreencherEndereco, h8]

/-- Witness for claim C7 at the partial input "123". -/
theorem claim_C7_witness :
    tentarAutoPreencherEndereco ambienteIndisponivel
      { cep := "123", rua := "r", numero := "n", bairro := none
        complemento := none, cidade := none, estado := none }
      = { campos := { cep := "123", rua := "r", numero := "n", bairro := none
                      complemento := none, cidade := none, estado := none }
          notificou := false, consultados := [], limpouTela := false } :=
  claim_C7 ambienteIndisponivel _ (by decide)

theorem estrategias_eq (d : Dom) (l : LabelElem) (k : Option Elem) :
    (match (if l.htmlFor != "" then
        match getById d l.htmlFor with
        | some e => if e.tag == Tag.input then some e else none
        | none => none
      else none) with
     | some e => some e
     | none =>
       match l.nested with
       | some e =>
         if e.tag == Tag.input then some e
         else
           match primeiroIrmaoInput l.siblings with
           | some e2 => some e2
           | none => k
       | none =>
         match primeiroIrmaoInput l.siblings with
         | some e2 => some e2
         | none => k)
    = (((alvoExplicito d l).orElse fun _ =>
        (inputAninhado l).orElse fun _ => primeiroIrmaoInput l.siblings).elim k some) := by
  unfold alvoExplicito inputAninhado
  by_cases hfor : (l.htmlFor != "") = true
  · simp only [hfor, if_true]
    cases hid : getById d l.htmlFor with
    | some e =>
      cases htag : e.tag with
      | input => simp [Option.orElse, htag]
      | other =>
        simp only [htag, Option.some_bind, Option.orElse]
        cases hn : l.nested with
        | some e2 =>
          cases htag2 : e2.tag with
          | input => simp [Option.orElse, htag2]
          | other =>
            simp only [htag2, Option.some_bind, Option.orElse]
            cases hs : primeiroIrmaoInput l.siblings <;> simp_all [Option.orElse]
        | none =>
          simp only [Option.none_bind, Option.orElse]
          cases hs : primeiroIrmaoInput l.siblings <;> simp_all [Option.orElse]
    | none =>
      simp only [Option.none_bind, Option.orElse]
      cases hn : l.nested with
      | some e2 =>
        cases htag2 : e2.tag with
        | input => simp [Option.orElse, htag2]
        | other =>
          simp only [htag2, Option.some_bind, Option.orElse]
          cases hs : primeiroIrmaoInput l.siblings <;> simp_all [Option.orElse]
      | none =>
        simp only [Option.none_bind, Option.orElse]
        cases hs : primeiroIrmaoInput l.siblings <;> simp_all [Option.orElse]
  · simp only [hfor, if_false, Option.orElse]
    cases hn : l.nested with
    | some e2 =>
      cases htag2 : e2.tag with
      | input => simp [Option.orElse, htag2]
      | other =>
        simp only [htag2, Option.some_bind, Option.orElse]
        cases hs : primeiroIrmaoInput l.siblings <;> simp_all [Option.orElse]
    | none =>
      simp only [Option.none_bind, Option.orElse]
      cases hs : primeiroIrmaoInput l.siblings <;> simp_all [Option.orElse]

/-- Claim C5 amended: the resolution algorithm the claim describes (normalised
trimmed label text compared against candidates in listed order, first match
wins, then target-id association / nested input / first input-typed following
sibling, first successful strategy wins) is exactly the part_001 resolver
`findFieldByLabel`.  The autofill_cep.js resolver deviates (see the
counterexample): it compares exact unnormalised text, returns the target-id
result unconditionally, and looks only at the immediate next sibling. -/
theorem claim_C5 : ∀ (textos : List String) (d : Dom),
    findFieldByLabel textos d = resolverEspecificacao textos d := by
  intro textos d
  induction textos with
  | nil => rfl
  | cons t resto ih =>
    rw [findFieldByLabel, resolverEspecificacao]
    simp only [List.findSome?_cons]
    cases hfind : d.labels.find?
        (fun l => normalizeStr (trimJs l.textContent) == normalizeStr t) with
    | none =>
      simp only [Option.none_bind]
      exact ih
    | some l =>
      simp only [Option.some_bind]
      rw [estrategias_eq d l (findFieldByLabel resto d)]
      cases hg : ((alvoExplicito d l).orElse fun _ =>
          (inputAninhado l).orElse fun _ => primeiroIrmaoInput l.siblings) with
      | some e => simp
      | none =>
        simp only [Option.elim]
        exact ih

/-- Counterexample to claim C5 as stated: a label reading "Endereço" with an
input nested inside.  Under normalised comparison the candidate "Endereco"
must resolve to that input (as part_001's findFieldByLabel does), but the
autofill_cep.js resolver compares exact trimmed text and resolves nothing. -/
theorem claim_C5_counterexample :
    encontrarCampoInputPorLabel ["Endereco"] domDemonstracao = none
    ∧ findFieldByLabel ["Endereco"] domDemonstracao = some ⟨7, Tag.input⟩
    ∧ resolverEspecificacao ["Endereco"] domDemonstracao = some ⟨7, Tag.input⟩ := by
  refine ⟨?_, ?_, ?_⟩ <;> decide

theorem inv_inicial : invariante estadoInicial := by
  refine ⟨fun h => ?_, fun _ => rfl, fun _ => rfl⟩
  simp [estadoInicial] at h

theorem busca_definir (m : List (Nat × Nat)) (e f : Nat) :
    buscaManipulador (definirManipulador m e f) e = some f := by
  simp [buscaManipulador, definirManipulador]

theorem remover_unico (h0 f0 : Nat) :
    removerOuvinte [(h0, f0)] h0 (some f0) = [] := by
  simp [removerOuvinte]

theorem adicionar_vazio (h f : Nat) : adicionarOuvinte [] h f = [(h, f)] := by
  simp [adicionarOuvinte]

theorem tick_mesmo (s : OrchState) (h : Nat) (hAt : s.atuais = some h) :
    tick s (some h) = (s, []) := by
  simp [tick, hAt]

theorem tick_anexa_de_vazio (s : OrchState) (h : Nat)
    (hA : s.anexado = false) (hAt : s.atuais = none) :
    (tick s (some h)).1.atuais = some h
    ∧ (tick s (some h)).1.anexado = true
    ∧ (tick s (some h)).1.manipuladores = definirManipulador s.manipuladores h s.fresh
    ∧ (tick s (some h)).1.listeners = adicionarOuvinte s.listeners h s.fresh := by
  refine ⟨?_, ?_, ?_, ?_⟩ <;> simp [tick, hAt, hA]

theorem tick_anexa_troca (s : OrchState) (h h0 : Nat)
    (hA : s.anexado = true) (hAt : s.atuais = some h0) (hne : h0 ≠ h) :
    (tick s (some h)).1.atuais = some h
    ∧ (tick s (some h)).1.anexado = true
    ∧ (tick s (some h)).1.manipuladores
        = definirManipulador s.manipuladores h s.fresh
    ∧ (tick s (some h)).1.listeners
        = adicionarOuvinte
            (removerOuvinte s.listeners h0 (buscaManipulador s.manipuladores h0))
            h s.fresh := by
  refine ⟨?_, ?_, ?_, ?_⟩ <;> simp [tick, hAt, hA, hne]

theorem tick_nada_anexado (s : OrchState) (h0 f0 : Nat) (hA : s.anexado = true)
    (hAt : s.atuais = some h0) (hman : buscaManipulador s.manipuladores h0 = some f0) :
    (tick s none).1.atuais = none
    ∧ (tick s none).1.anexado = false
    ∧ (tick s none).1.listeners = removerOuvinte s.listeners h0 (some f0) := by
  refine ⟨?_, ?_, ?_⟩ <;> simp [tick, hAt, hA, hman]

theorem tick_nada_solto (s : OrchState) (hA : s.anexado = false) :
    (tick s none).1 = s := by
  simp [tick, hA]

theorem inv_tick (s : OrchState) (e : Option Nat) (hs : invariante s) :
    invariante (tick s e).1 := by
  obtain ⟨h1, h2, h3⟩ := hs
  cases e with
  | some h =>
    cases hA : s.anexado with
    | true =>
      obtain ⟨h0, f0, hAt, hman, hlist⟩ := h1 hA
      by_cases hne : h0 = h
      · subst hne
        rw [tick_mesmo s h0 hAt]
        exact ⟨h1, h2, h3⟩
      · obtain ⟨c1, c2, c3, c4⟩ := tick_anexa_troca s h h0 hA hAt hne
        refine ⟨fun _ => ⟨h, s.fresh, c1, ?_, ?_⟩, fun hfalso => ?_, fun hfalso => ?_⟩
        · rw [c3, busca_definir]
        · rw [c4, hlist, hman, remover_unico, adicionar_vazio]
        · rw [c2] at hfalso; cases hfalso
        · rw [c2] at hfalso; cases hfalso
    | false =>
      have hAt := h3 hA
      by_cases hne : s.atuais = some h
      · rw [hAt] at hne; cases hne
      · obtain ⟨c1, c2, c3, c4⟩ := tick_anexa_de_vazio s h hA hAt
        refine ⟨fun _ => ⟨h, s.fresh, c1, ?_, ?_⟩, fun hfalso => ?_, fun hfalso => ?_⟩
        · rw [c3, busca_definir]
        · rw [c4, h2 hA, adicionar_vazio]
        · rw [c2] at hfalso; cases hfalso
        · rw [c2] at hfalso; cases hfalso
  | none =>
    cases hA : s.anexado with
    | true =>
      obtain ⟨h0, f0, hAt, hman, hlist⟩ := h1 hA
      obtain ⟨c1, c2, c3⟩ := tick_nada_anexado s h0 f0 hA hAt hman
      refine ⟨fun hverd => ?_, fun _ => ?_, fun _ => c1⟩
      · rw [c2] at hverd; cases hverd
      · rw [c3, hlist, remover_unico]
    | false =>
      rw [tick_nada_solto s hA]
      exact ⟨h1, h2, h3⟩

theorem inv_foldl (eventos : List (Option Nat)) : ∀ s, invariante s →
    invariante (eventos.foldl (fun s e => (tick s e).1) s) := by
  induction eventos with
  | nil => intro s hs; exact hs
  | cons e resto ih => intro s hs; exact ih _ (inv_tick s e hs)

theorem inv_executar (eventos : List (Option Nat)) : invariante (executarTicks eventos) :=
  inv_foldl eventos estadoInicial inv_inicial

theorem tick_some_resultado (s : OrchState) (h : Nat) (hs : invariante s) :
    (tick s (some h)).1.atuais = some h
    ∧ (tick s (some h)).1.listeners.map Prod.fst = [h] := by
  obtain ⟨h1, h2, h3⟩ := hs
  cases hA : s.anexado with
  | true =>
    obtain ⟨h0, f0, hAt, hman, hlist⟩ := h1 hA
    by_cases hne : h0 = h
    · subst hne
      rw [tick_mesmo s h0 hAt]
      exact ⟨hAt, by rw [hlist]; rfl⟩
    · obtain ⟨c1, _, _, c4⟩ := tick_anexa_troca s h h0 hA hAt hne
      refine ⟨c1, ?_⟩
      rw [c4, hlist, hman, remover_unico, adicionar_vazio]
      rfl
  | false =>
    obtain ⟨c1, _, _, c4⟩ := tick_anexa_de_vazio s h hA (h3 hA)
    refine ⟨c1, ?_⟩
    rw [c4, h2 hA, adicionar_vazio]
    rfl

theorem foldl_estavel (h : Nat) (n : Nat) (s : OrchState) (hAt : s.atuais = some h) :
    (List.replicate n (some h)).foldl (fun s e => (tick s e).1) s = s := by
  induction n with
  | zero => rfl
  | succ m ih =>
    rw [List.replicate_succ, List.foldl_cons, tick_mesmo s h hAt]
    exact ih

/-- Claim C2: at every reachable orchestrator state at most one input listener
is attached, and after N consecutive ticks (N at least 1) resolving a stable
field set exactly one input listener is attached, on that set's code field. -/
theorem claim_C2 :
    (∀ eventos, (executarTicks eventos).listeners.length ≤ 1)
    ∧ (∀ eventos (h n : Nat), 1 ≤ n →
        (executarTicks (eventos ++ List.replicate n (some h))).listeners.map Prod.fst
          = [h]) := by
  constructor
  · intro eventos
    obtain ⟨h1, h2, h3⟩ := inv_executar eventos
    cases hA : (executarTicks eventos).anexado with
    | true =>
      obtain ⟨h0, f0, _, _, hlist⟩ := h1 hA
      rw [hlist]
      simp
    | false =>
      rw [h2 hA]
      simp
  · intro eventos h n hn
    obtain ⟨m, rfl⟩ := Nat.exists_eq_add_of_le hn
    have hinv := inv_executar eventos
    obtain ⟨c1, c2⟩ := tick_some_resultado (executarTicks eventos) h hinv
    have hsplit : executarTicks (eventos ++ List.replicate (1 + m) (some h))
        = (List.replicate (1 + m) (some h)).foldl
            (fun s e => (tick s e).1) (executarTicks eventos) := by
      rw [executarTicks, executarTicks, List.foldl_append]
    rw [hsplit, Nat.add_comm 1 m, List.replicate_succ, List.foldl_cons,
      foldl_estavel h m _ c1]
    exact c2

/-- Witness for claim C2: after two stable ticks resolving handle 9 (preceded
by a failed tick and a tick resolving handle 5), exactly the one listener on
handle 9 is attached. -/
theorem claim_C2_witness :
    (executarTicks ([none, some 5] ++ List.replicate 2 (some 9))).listeners.map Prod.fst
      = [9] :=
  claim_C2.2 [none, some 5] 9 2 (by decide)

theorem procurar_vazio (frames : List (Option Dom)) :
    (procurarNosFrames none frames).1 = none
    ∧ (procurarNosFrames none frames).2.all (fun e => e == NivelLog.info) = true := by
  induction frames with
  | nil => exact ⟨rfl, rfl⟩
  | cons f resto ih =>
    cases f with
    | none => simp [procurarNosFrames, ih.1, ih.2]
    | some d => simp [procurarNosFrames, obterInputsFormularioEndereco, ih.1, ih.2]

/-- Claim C9: while the label map is empty the resolver returns null (not an
error) after a single info-level log entry, and an orchestrator tick from the
startup state leaves it in the idle state with no listener attached and logs
nothing at error level. -/
theorem claim_C9 (d : Dom) (frames : List (Option Dom)) :
    obterInputsFormularioEndereco none d = (none, [NivelLog.info])
    ∧ (configurarListenersEndereco none d frames estadoInicial).1 = estadoInicial
    ∧ (configurarListenersEndereco none d frames estadoInicial).1.listeners = []
    ∧ (configurarListenersEndereco none d frames estadoInicial).2.all
        (fun e => e == NivelLog.info) = true := by
  have hproc := procurar_vazio frames
  have hconf : configurarListenersEndereco none d frames estadoInicial
      = (estadoInicial,
          [NivelLog.info] ++ (procurarNosFrames none frames).2 ++ [NivelLog.info]) := by
    simp [configurarListenersEndereco, obterInputsFormularioEndereco, hproc.1, tick,
      estadoInicial]
  refine ⟨rfl, ?_, ?_, ?_⟩
  · rw [hconf]
  · rw [hconf]
    rfl
  · rw [hconf]
    simp [hproc.2]

theorem ehEmailParceiro_vazia : ehEmailParceiro "" = false := by decide

theorem passo_input_eq (i : InputElem) :
    passoEmail (passoNumerico i) = scrubEspecInput i := by
  obtain ⟨t, m, v⟩ := i
  by_cases hA : ehAlvoNumerico ⟨t, m, v⟩ = true <;>
  by_cases hE : ehAlvoEmail ⟨t, m, v⟩ = true <;>
  by_cases hv0 : v = "" <;>
  by_cases hall : v.all ehDigitoEspacoMais = true <;>
  by_cases hL : limparNumero v = "" <;>
  by_cases hP : ehEmailParceiro v = true <;>
  by_cases hPL : ehEmailParceiro (limparNumero v) = true <;>
  simp_all [passoNumerico, passoEmail, scrubEspecInput, ehAlvoEmail, ehAlvoNumerico,
    ehEmailParceiro_vazia]

theorem mapa_passos (inputs : List InputElem) :
    (inputs.map passoNumerico).map passoEmail = inputs.map scrubEspecInput := by
  induction inputs with
  | nil => rfl
  | cons i resto ih => simp [passo_input_eq i, ih]

mutual
theorem limpar_eq_mapa : ∀ j : Janela, limparDadosTela j = mapaJanela scrubEspecInput j
  | .mk a inputs frames => by
    rw [limparDadosTela, mapaJanela, mapa_passos, limparFrames_eq_mapa frames]
theorem limparFrames_eq_mapa : ∀ fs : Frames,
    limparFramesTela fs = mapaFrames scrubEspecInput fs
  | .nil => rfl
  | .cons f resto => by
    rw [limparFramesTela, mapaFrames, limparFrames_eq_mapa resto]
    by_cases hf : f.acessivel = true
    · rw [if_pos hf, if_pos hf, limpar_eq_mapa f]
    · rw [if_neg hf, if_neg hf]
end

/-- Claim C10: the scrub pass transforms every input of the window and of all
accessible frames, recursively, by exactly the per-input rule the claim
states (strip a leading +55 and all spaces and plus signs from phone-like
values of text/tel/numeric inputs; clear partner e-mail values of text/email
inputs; leave every other input unchanged); and the input handler runs the
scrub exactly after a successful fill. -/
theorem claim_C10 :
    (∀ j : Janela, limparDadosTela j = mapaJanela scrubEspecInput j)
    ∧ (∀ (env : ProviderEnv) (st : FormState),
        (tentarAutoPreencherEndereco env st).limpouTela
          = ((somenteDigitos st.cep).length == 8
              && (lookupComTrace env (somenteDigitos st.cep)).1.isSome))
    ∧ (∀ tr d frames s arvore,
        (cicloDeVerificacao tr d frames s arvore).2
          = mapaJanela scrubEspecInput arvore) := by
  refine ⟨limpar_eq_mapa, ?_, fun tr d frames s arvore => limpar_eq_mapa arvore⟩
  · intro env st
    by_cases h8 : ((somenteDigitos st.cep).length == 8) = true
    · rcases hp : lookupComTrace env (somenteDigitos st.cep) with ⟨o, tr⟩
      cases o <;> simp [tentarAutoPreencherEndereco, h8, hp]
    · simp [tentarAutoPreencherEndereco, h8]
